import Mathlib

/-!
Verification development for the REV2 frontend: a shallow embedding of the
typed API client (lib/api.ts), the reviews page (pages/reviews.tsx), the
dashboard (pages/index.tsx), the analytics page (pages/analytics.tsx), the
settings page (pages/settings.tsx), the reviews table component
(components/ReviewsTable.tsx) and the metric card component
(components/MetricCard.tsx).

Strings stay strings (the source passes status and sort keys as string
literals), JS numbers that the claims touch are modelled as Int, optional
values as Option, and URLSearchParams accumulation as a list of key-value
pairs in append order.  JS truthiness, which the client uses to decide
whether a query parameter is appended, is modelled per type: a string is
truthy iff it is nonempty, a number iff it is nonzero, an absent
(undefined) field is falsy.
-/

namespace REV2

/-! ### Data model (lib/api.ts interfaces) -/

/-- Review record, from the Review interface in lib/api.ts. -/
structure Review where
  id : String
  installation_id : String
  repo_name : String
  pr_number : Int
  pr_url : String
  commit_sha : String
  files_reviewed : Int
  review_status : String
  total_comments : Int
  api_latency_ms : Int
  cache_hit : Bool
  error_message : Option String
  created_at : String
  updated_at : String
deriving DecidableEq, Repr

/-- Metrics record, from the Metrics interface in lib/api.ts. -/
structure Metrics where
  total_reviews : Int
  success_rate : Int
  avg_latency_ms : Int
  cache_hit_rate : Int
  review_trend : Int
  latency_trend : Int
  cache_trend : Int
  success_trend : Int
deriving DecidableEq, Repr

/-- Settings record, from the Settings interface in lib/api.ts; every field
is optional there. -/
structure Settings where
  default_model : Option String := none
  max_files_per_review : Option Int := none
  max_lines_per_file : Option Int := none
  enable_caching : Option Bool := none
  enable_parallel_processing : Option Bool := none
  enable_batch_processing : Option Bool := none
  rate_limit_per_hour : Option Int := none
  request_timeout_seconds : Option Int := none
deriving DecidableEq, Repr

/-! ### API client query-string construction (lib/api.ts) -/

/-- Options object accepted by api.getReviews in lib/api.ts. -/
structure GetReviewsOptions where
  search : Option String := none
  status : Option String := none
  sort_by : Option String := none
  page : Option Int := none
  limit : Option Int := none
deriving DecidableEq, Repr

/-- One conditional URLSearchParams.append for a string-typed field: the
source guards each append with JS truthiness, which for a string means
nonempty and for undefined means skipped. -/
def optStrParam (key : String) (v : Option String) : List (String × String) :=
  match v with
  | some s => if s = "" then [] else [(key, s)]
  | none => []

/-- One conditional URLSearchParams.append for a number-typed field: a JS
number is truthy iff nonzero, and the appended value is its decimal
rendering (toString). -/
def optIntParam (key : String) (v : Option Int) : List (String × String) :=
  match v with
  | some n => if n = 0 then [] else [(key, toString n)]
  | none => []

/-- Query parameters built by api.getReviews (lib/api.ts lines 85-101):
five guarded appends, in source order search, status, sort_by, page,
limit. -/
def getReviewsParams (o : GetReviewsOptions) : List (String × String) :=
  optStrParam "search" o.search ++ optStrParam "status" o.status ++
    optStrParam "sort_by" o.sort_by ++ optIntParam "page" o.page ++
      optIntParam "limit" o.limit

/-- Query parameters built by api.exportReviews (lib/api.ts lines 118-128):
a guarded append of format followed by a guarded append of status. -/
def exportReviewsParams (format : String) (status : Option String) :
    List (String × String) :=
  (if format = "" then [] else [("format", format)]) ++
    optStrParam "status" status

/-! ### Reviews page state and handlers (pages/reviews.tsx) -/

/-- The four useState variables of the Reviews page: search text, status
filter (one of "all", "success", "partial_failure", "failure"), sort key
(one of "date", "latency", "comments") and 1-based page number. -/
structure ReviewsPageState where
  searchQuery : String
  statusFilter : String
  sortBy : String
  page : Int
deriving DecidableEq, Repr

/-- Initial state of the Reviews page: useState with the empty string for
search, with "all" for status, with "date" for sort, and with 1 for
page. -/
def initialReviewsPageState : ReviewsPageState :=
  { searchQuery := "", statusFilter := "all", sortBy := "date", page := 1 }

/-- Options the Reviews page queryFn passes to api.getReviews
(reviews.tsx lines 22-29): the search text as-is, the status filter mapped
to undefined when it is "all", the sort key, the page, and limit 20. -/
def reviewsQueryOptions (s : ReviewsPageState) : GetReviewsOptions :=
  { search := some s.searchQuery
  , status := if s.statusFilter = "all" then none else some s.statusFilter
  , sort_by := some s.sortBy
  , page := some s.page
  , limit := some 20 }

/-- handleSearch (reviews.tsx lines 33-36): store the new search text and
set the page to 1. -/
def handleSearch (v : String) (s : ReviewsPageState) : ReviewsPageState :=
  { s with searchQuery := v, page := 1 }

/-- handleStatusChange (reviews.tsx lines 38-41): store the new status
filter and set the page to 1. -/
def handleStatusChange (v : String) (s : ReviewsPageState) : ReviewsPageState :=
  { s with statusFilter := v, page := 1 }

/-- handleSortChange (reviews.tsx lines 43-46): store the new sort key and
set the page to 1. -/
def handleSortChange (v : String) (s : ReviewsPageState) : ReviewsPageState :=
  { s with sortBy := v, page := 1 }

/-- Status argument handleExport passes to api.exportReviews
(reviews.tsx lines 50-53): undefined when the filter is "all", the filter
value otherwise. -/
def handleExportStatus (s : ReviewsPageState) : Option String :=
  if s.statusFilter = "all" then none else some s.statusFilter

/-- Query parameters of the export request issued by handleExport: format
is always the literal "csv". -/
def handleExportParams (s : ReviewsPageState) : List (String × String) :=
  exportReviewsParams "csv" (handleExportStatus s)

/-- Previous-button onClick (reviews.tsx line 163): set the page to
Math.max(1, p - 1) where p is the current page. -/
def prevPageClick (s : ReviewsPageState) : ReviewsPageState :=
  { s with page := max 1 (s.page - 1) }

/-- Previous-button disabled condition (reviews.tsx line 164):
page === 1. -/
def prevDisabled (s : ReviewsPageState) : Bool :=
  s.page = 1

/-- Next-button onClick (reviews.tsx line 171): set the page to p + 1
where p is the current page. -/
def nextPageClick (s : ReviewsPageState) : ReviewsPageState :=
  { s with page := s.page + 1 }

/-- The user events that can change the Reviews page state. -/
inductive ReviewsPageEvent
  | search (v : String)
  | statusChange (v : String)
  | sortChange (v : String)
  | prevClick
  | nextClick
deriving DecidableEq, Repr

/-- One step of the Reviews page state machine, dispatching each event to
its handler from reviews.tsx. -/
def stepReviewsPage : ReviewsPageEvent → ReviewsPageState → ReviewsPageState
  | .search v, s => handleSearch v s
  | .statusChange v, s => handleStatusChange v s
  | .sortChange v, s => handleSortChange v s
  | .prevClick, s => prevPageClick s
  | .nextClick, s => nextPageClick s

/-- Run the Reviews page from its initial state through a list of events. -/
def runReviewsPage (es : List ReviewsPageEvent) : ReviewsPageState :=
  es.foldl (fun s e => stepReviewsPage e s) initialReviewsPageState

/-! ### ReviewsTable component (components/ReviewsTable.tsx) -/

/-- The three lucide icons the status column can show. -/
inductive StatusIcon
  | checkCircle
  | alertCircle
  | xCircle
deriving DecidableEq, Repr

/-- getStatusIcon (ReviewsTable.tsx lines 12-23): a switch on the status
string returning CheckCircle, AlertCircle, XCircle or null. -/
def getStatusIcon (status : String) : Option StatusIcon :=
  if status = "success" then some .checkCircle
  else if status = "partial_failure" then some .alertCircle
  else if status = "failure" then some .xCircle
  else none

/-- getStatusBadge (ReviewsTable.tsx lines 25-36): a switch on the status
string returning the badge class string; the default branch is the neutral
gray badge. -/
def getStatusBadge (status : String) : String :=
  if status = "success" then "bg-success-100 text-success-800"
  else if status = "partial_failure" then "bg-warning-100 text-warning-800"
  else if status = "failure" then "bg-danger-100 text-danger-800"
  else "bg-gray-100 text-gray-800"

/-- The three mutually exclusive renderings of ReviewsTable: the loading
skeleton, the "No reviews found" placeholder, and the populated table. -/
inductive TableView
  | skeleton
  | noReviewsFound
  | table (rows : List Review)
deriving DecidableEq, Repr

/-- Top-level branching of ReviewsTable (ReviewsTable.tsx lines 38-58): if
loading, render the skeleton; else if the list is empty, render the
placeholder; else render the table over the rows. -/
def reviewsTableView (reviews : List Review) (loading : Bool) : TableView :=
  if loading then .skeleton
  else if reviews.length = 0 then .noReviewsFound
  else .table reviews

/-- ReviewsTable element of the Reviews page (reviews.tsx line 158): the
page passes reviewsData or the empty list when data is still undefined,
and the isLoading flag of the query. -/
def reviewsPageTable (reviewsData : Option (List Review)) (isLoading : Bool) :
    TableView :=
  reviewsTableView (reviewsData.getD []) isLoading

/-! ### MetricCard and the dashboard latency card -/

/-- Props of the MetricCard component (MetricCard.tsx) that carry data:
title, rendered value, optional change string, and the positive flag
choosing the up-arrow success style over the down-arrow danger style. -/
structure MetricCardProps where
  title : String
  value : String
  change : Option String
  positive : Bool
deriving DecidableEq, Repr

/-- The Avg Latency MetricCard the dashboard renders (pages/index.tsx
lines 222-228): the value is the latency with an ms suffix, the change is
Math.abs(latency_trend) with a percent suffix, and positive is the
comparison latency_trend less-or-equal 0. -/
def avgLatencyCard (m : Metrics) : MetricCardProps :=
  { title := "Avg Latency"
  , value := toString m.avg_latency_ms ++ "ms"
  , change := some (toString m.latency_trend.natAbs ++ "%")
  , positive := m.latency_trend ≤ 0 }

/-! ### Error surfaces of the three fetching pages -/

/-- Whether a page replaces its whole content with a blocking error view,
and whether that view offers a manual retry control. -/
inductive PageErrorView
  | blockingError (hasRetryAction : Bool)
  | nonBlocking
deriving DecidableEq, Repr

/-- The Reviews page return on a query error (reviews.tsx lines 69-81): a
blocking "Failed to load reviews" view whose Try Again button calls
refetch, replacing the whole page. -/
def reviewsPageErrorView (hasError : Bool) : PageErrorView :=
  if hasError then .blockingError true else .nonBlocking

/-- Toasts the Reviews page emits when its list query fails: the component
registers no effect on the query error (the only toast calls in
reviews.tsx sit inside handleExport, tied to export outcomes), so the list
is empty for either flag value. -/
def reviewsFetchErrorToasts (_hasError : Bool) : List String :=
  []

/-- Toasts the Dashboard emits on query errors (pages/index.tsx lines
163-173): one useEffect per query, each firing one toast.error when its
error is set. -/
def dashboardErrorToasts (metricsError reviewsError : Bool) : List String :=
  (if metricsError then ["Failed to load metrics"] else []) ++
    (if reviewsError then ["Failed to load reviews"] else [])

/-- The Dashboard never returns a blocking error view: its render
(pages/index.tsx lines 175-268) has no error branch, only the
loading/metrics/null conditional for the cards. -/
def dashboardErrorView (_metricsError _reviewsError : Bool) : PageErrorView :=
  .nonBlocking

/-- Toasts the Analytics page emits on a query error (pages/analytics.tsx
lines 21-25): one useEffect firing one toast.error. -/
def analyticsErrorToasts (hasError : Bool) : List String :=
  if hasError then ["Failed to load analytics"] else []

/-- The Analytics page never returns a blocking error view: its render
(pages/analytics.tsx lines 27-169) has no error branch, only the
loading/analytics/null conditional. -/
def analyticsErrorView (_hasError : Bool) : PageErrorView :=
  .nonBlocking

/-! ### Settings page (pages/settings.tsx) -/

/-- The two useState variables of the Settings page: the saving guard and
the local draft, null until the settings query delivers. -/
structure SettingsPageState where
  saving : Bool
  settings : Option Settings
deriving DecidableEq, Repr

/-- Initial state of the Settings page: useState(false) for saving,
useState(null) for the draft. -/
def settingsPageInit : SettingsPageState :=
  { saving := false, settings := none }

/-- Outcome of the api.updateSettings mutation. -/
inductive SaveOutcome
  | succeeded
  | failed
deriving DecidableEq, Repr

/-- saveMutation onSuccess callback (settings.tsx lines 29-32): toast
success and setSaving(false); the draft is untouched. -/
def saveMutationOnSuccess (s : SettingsPageState) : SettingsPageState :=
  { s with saving := false }

/-- saveMutation onError callback (settings.tsx lines 33-36): toast error
and setSaving(false); the draft is untouched. -/
def saveMutationOnError (s : SettingsPageState) : SettingsPageState :=
  { s with saving := false }

/-- handleSave (settings.tsx lines 39-43): return immediately when the
draft is null, otherwise setSaving(true) and hand the draft to
saveMutation.mutate.  The second component is the mutation request issued,
none when no request is made. -/
def handleSave (s : SettingsPageState) : SettingsPageState × Option Settings :=
  match s.settings with
  | none => (s, none)
  | some d => ({ s with saving := true }, some d)

/-- handleSave followed by the mutation settling with the given outcome;
when handleSave issued no request, neither callback runs. -/
def handleSaveWithOutcome (outcome : SaveOutcome) (s : SettingsPageState) :
    SettingsPageState :=
  match handleSave s with
  | (s1, none) => s1
  | (s1, some _) =>
      match outcome with
      | .succeeded => saveMutationOnSuccess s1
      | .failed => saveMutationOnError s1

/-- A concrete reviews page state whose status filter is "failure", used
to evaluate the export parameter construction. -/
def failureFilterState : ReviewsPageState :=
  { searchQuery := "", statusFilter := "failure", sortBy := "date"
  , page := 1 }

/-! ### Auxiliary facts about decimal rendering -/

/-- The digit accumulator of Nat.toDigitsCore never shrinks. -/
theorem toDigitsCore_length_le (b : Nat) :
    ∀ (fuel n : Nat) (ds : List Char),
      ds.length ≤ (Nat.toDigitsCore b fuel n ds).length := by
  intro fuel
  induction fuel with
  | zero => intro n ds; simp [Nat.toDigitsCore]
  | succ f ih =>
      intro n ds
      simp only [Nat.toDigitsCore]
      by_cases h : n / b = 0
      · simp [h]
      · simp only [h, if_neg]
        calc ds.length ≤ (Nat.digitChar (n % b) :: ds).length := by simp
          _ ≤ _ := ih (n / b) (Nat.digitChar (n % b) :: ds)

/-- The decimal rendering of a natural number is a nonempty string. -/
theorem nat_repr_ne_empty (n : Nat) : Nat.repr n ≠ "" := by
  have h : 1 ≤ (Nat.toDigitsCore 10 (n + 1) n []).length := by
    have := toDigitsCore_length_le 10 n (n / 10)
      [Nat.digitChar (n % 10)]
    simp only [Nat.toDigitsCore]
    by_cases hd : n / 10 = 0
    · simp [hd]
    · simp only [hd, if_neg]
      calc 1 = ([Nat.digitChar (n % 10)] : List Char).length := by simp
        _ ≤ _ := this
  intro hrepr
  have : (Nat.repr n).length = 0 := by rw [hrepr]; rfl
  rw [Nat.repr, Nat.toDigits] at this
  simp only [String.length, List.asString] at this
  omega

/-- The decimal rendering of an integer is a nonempty string. -/
theorem int_toString_ne_empty (n : Int) : toString n ≠ "" := by
  show Int.repr n ≠ ""
  cases n with
  | ofNat m => exact nat_repr_ne_empty m
  | negSucc m =>
      intro h
      have : ("-" ++ Nat.repr (m + 1)).length = 0 := by
        rw [Int.repr] at h; rw [h]; rfl
      simp [String.length_append] at this
      exact absurd this.1 (by decide)

/-- Every pair that a guarded string append contributes has the given key
and a nonempty value. -/
theorem optStrParam_mem {k : String} {v : Option String} {p : String × String}
    (h : p ∈ optStrParam k v) : p.1 = k ∧ p.2 ≠ "" := by
  cases v with
  | none => simp [optStrParam] at h
  | some s =>
      by_cases hs : s = ""
      · simp [optStrParam, hs] at h
      · simp [optStrParam, hs] at h
        subst h
        exact ⟨rfl, hs⟩

/-- Every pair that a guarded number append contributes has the given key
and a nonempty value. -/
theorem optIntParam_mem {k : String} {v : Option Int} {p : String × String}
    (h : p ∈ optIntParam k v) : p.1 = k ∧ p.2 ≠ "" := by
  cases v with
  | none => simp [optIntParam] at h
  | some n =>
      by_cases hn : n = 0
      · simp [optIntParam, hn] at h
      · simp [optIntParam, hn] at h
        subst h
        exact ⟨rfl, int_toString_ne_empty n⟩

/-- Every pair api.getReviews appends carries one of the five known keys
and a nonempty value. -/
theorem getReviewsParams_mem {o : GetReviewsOptions} {p : String × String}
    (h : p ∈ getReviewsParams o) :
    (p.1 = "search" ∨ p.1 = "status" ∨ p.1 = "sort_by" ∨ p.1 = "page" ∨
      p.1 = "limit") ∧ p.2 ≠ "" := by
  simp only [getReviewsParams, List.mem_append] at h
  rcases h with (((h | h) | h) | h) | h
  · exact ⟨Or.inl (optStrParam_mem h).1, (optStrParam_mem h).2⟩
  · exact ⟨Or.inr (Or.inl (optStrParam_mem h).1), (optStrParam_mem h).2⟩
  · exact ⟨Or.inr (Or.inr (Or.inl (optStrParam_mem h).1)),
      (optStrParam_mem h).2⟩
  · exact ⟨Or.inr (Or.inr (Or.inr (Or.inl (optIntParam_mem h).1))),
      (optIntParam_mem h).2⟩
  · exact ⟨Or.inr (Or.inr (Or.inr (Or.inr (optIntParam_mem h).1))),
      (optIntParam_mem h).2⟩

/-- C1: when the reviews page has search text "" and status filter "all",
the GET /reviews request built by api.getReviews contains neither a search
nor a status parameter, and for every options object no parameter is ever
appended with an empty value. -/
theorem getReviews_omits_unset_filters (s : ReviewsPageState)
    (o : GetReviewsOptions) (p q : String × String)
    (hsearch : s.searchQuery = "") (hstatus : s.statusFilter = "all")
    (hp : p ∈ getReviewsParams (reviewsQueryOptions s))
    (hq : q ∈ getReviewsParams o) :
    (p.1 ≠ "search" ∧ p.1 ≠ "status") ∧ q.2 ≠ "" := by
  refine ⟨?_, (getReviewsParams_mem hq).2⟩
  simp only [getReviewsParams, reviewsQueryOptions, hsearch, hstatus,
    List.mem_append] at hp
  rcases hp with (((hp | hp) | hp) | hp) | hp
  · simp [optStrParam] at hp
  · simp [optStrParam] at hp
  · rcases optStrParam_mem hp with ⟨hk, -⟩
    rw [hk]; exact ⟨by decide, by decide⟩
  · rcases optIntParam_mem hp with ⟨hk, -⟩
    rw [hk]; exact ⟨by decide, by decide⟩
  · rcases optIntParam_mem hp with ⟨hk, -⟩
    rw [hk]; exact ⟨by decide, by decide⟩

/-- C1 witness: in the initial page state the built parameter list is
exactly sort_by, page, limit, and a concrete search option appends a
nonempty value. -/
theorem getReviews_omits_unset_filters_witness :
    ((("sort_by", "date") : String × String).1 ≠ "search" ∧
      (("sort_by", "date") : String × String).1 ≠ "status") ∧
    ((("search", "repo") : String × String)).2 ≠ "" :=
  getReviews_omits_unset_filters initialReviewsPageState
    { search := some "repo" } ("sort_by", "date") ("search", "repo")
    rfl rfl (by decide) (by decide)

/-- C2: each of the three filter handlers of the reviews page sets the
page number to 1, whatever the prior state and the new value. -/
theorem filter_change_resets_page (s : ReviewsPageState) (v : String) :
    (handleSearch v s).page = 1 ∧ (handleStatusChange v s).page = 1 ∧
      (handleSortChange v s).page = 1 :=
  ⟨rfl, rfl, rfl⟩

/-- C3: when the draft is loaded and the update mutation fails, the draft
is exactly what it was before the save attempt and the saving guard is
back to false. -/
theorem failed_save_leaves_draft (s : SettingsPageState) (d : Settings)
    (h : s.settings = some d) :
    (handleSaveWithOutcome .failed s).settings = some d ∧
      (handleSaveWithOutcome .failed s).saving = false := by
  simp [handleSaveWithOutcome, handleSave, h, saveMutationOnError]

/-- C3 witness: a concrete loaded state run through a failed save keeps
its draft and ends with saving false. -/
theorem failed_save_leaves_draft_witness :
    (handleSaveWithOutcome .failed
        { saving := false, settings := some ({} : Settings) }).settings =
      some ({} : Settings) ∧
    (handleSaveWithOutcome .failed
        { saving := false, settings := some ({} : Settings) }).saving =
      false :=
  failed_save_leaves_draft _ ({} : Settings) rfl

/-- C4: the status-to-visual mapping of the reviews table is exactly
success to CheckCircle and the success badge, partial_failure to
AlertCircle and the warning badge, failure to XCircle and the danger
badge, and any other status string to no icon and the neutral gray
badge. -/
theorem status_visual_mapping (s : String) (h1 : s ≠ "success")
    (h2 : s ≠ "partial_failure") (h3 : s ≠ "failure") :
    getStatusIcon "success" = some .checkCircle ∧
    getStatusBadge "success" = "bg-success-100 text-success-800" ∧
    getStatusIcon "partial_failure" = some .alertCircle ∧
    getStatusBadge "partial_failure" = "bg-warning-100 text-warning-800" ∧
    getStatusIcon "failure" = some .xCircle ∧
    getStatusBadge "failure" = "bg-danger-100 text-danger-800" ∧
    getStatusIcon s = none ∧
    getStatusBadge s = "bg-gray-100 text-gray-800" := by
  refine ⟨by decide, by decide, by decide, by decide, by decide, by decide,
    ?_, ?_⟩ <;>
    simp [getStatusIcon, getStatusBadge, h1, h2, h3]

/-- C4 witness: the unrecognized status "pending" renders no icon and the
neutral badge, alongside the three recognized mappings. -/
theorem status_visual_mapping_witness :
    getStatusIcon "success" = some .checkCircle ∧
    getStatusBadge "success" = "bg-success-100 text-success-800" ∧
    getStatusIcon "partial_failure" = some .alertCircle ∧
    getStatusBadge "partial_failure" = "bg-warning-100 text-warning-800" ∧
    getStatusIcon "failure" = some .xCircle ∧
    getStatusBadge "failure" = "bg-danger-100 text-danger-800" ∧
    getStatusIcon "pending" = none ∧
    getStatusBadge "pending" = "bg-gray-100 text-gray-800" :=
  status_visual_mapping "pending" (by decide) (by decide) (by decide)

/-- C5: the dashboard latency card displays the trend as the absolute
value of latency_trend followed by a percent sign, and is marked favorable
exactly when latency_trend compared against zero with the inverted sign
holds; in particular trend -5 renders favorable with "5%" and trend 5
renders unfavorable with "5%". -/
theorem latency_card_trend_display (m : Metrics) :
    ((avgLatencyCard m).positive = true ↔ m.latency_trend ≤ 0) ∧
    (avgLatencyCard m).change =
      some (toString m.latency_trend.natAbs ++ "%") ∧
    (m.latency_trend = -5 →
      (avgLatencyCard m).positive = true ∧
        (avgLatencyCard m).change = some "5%") ∧
    (m.latency_trend = 5 →
      (avgLatencyCard m).positive = false ∧
        (avgLatencyCard m).change = some "5%") := by
  refine ⟨by simp [avgLatencyCard], rfl, ?_, ?_⟩ <;>
    (intro h; simp [avgLatencyCard, h]) <;> decide

/-- C5 witness: a concrete metrics record with latency trend -5 yields a
favorable card showing "5%". -/
theorem latency_card_trend_display_witness :
    (avgLatencyCard
        { total_reviews := 100, success_rate := 95, avg_latency_ms := 800
        , cache_hit_rate := 40, review_trend := 2, latency_trend := -5
        , cache_trend := 1, success_trend := 3 }).positive = true ∧
    (avgLatencyCard
        { total_reviews := 100, success_rate := 95, avg_latency_ms := 800
        , cache_hit_rate := 40, review_trend := 2, latency_trend := -5
        , cache_trend := 1, success_trend := 3 }).change = some "5%" :=
  (latency_card_trend_display _).2.2.1 rfl

/-- C6: the export request from the reviews page always carries format
csv, and carries a status parameter exactly when the current status filter
differs from "all", in which case the parameter value is the filter. -/
theorem export_params_status_iff (s : ReviewsPageState) (v : String)
    (hs : s.statusFilter = "all" ∨ s.statusFilter = "success" ∨
      s.statusFilter = "partial_failure" ∨ s.statusFilter = "failure") :
    ("format", "csv") ∈ handleExportParams s ∧
    (("status", v) ∈ handleExportParams s ↔
      s.statusFilter ≠ "all" ∧ v = s.statusFilter) := by
  rcases hs with h | h | h | h <;>
    simp [handleExportParams, exportReviewsParams, handleExportStatus,
      optStrParam, h]

/-- C6 witness: with the status filter "failure" the export parameters
contain format csv and the status parameter "failure". -/
theorem export_params_status_iff_witness :
    ("format", "csv") ∈ handleExportParams failureFilterState ∧
    (("status", "failure") ∈ handleExportParams failureFilterState ↔
      failureFilterState.statusFilter ≠ "all" ∧
        "failure" = failureFilterState.statusFilter) :=
  export_params_status_iff failureFilterState "failure"
    (Or.inr (Or.inr (Or.inr rfl)))

/-- C7: when the reviews query has delivered an empty list and no fetch is
in flight, the reviews table renders the "No reviews found" placeholder
and not the table shell. -/
theorem empty_fetch_renders_placeholder (reviewsData : List Review)
    (isLoading : Bool) (hLen : reviewsData.length = 0)
    (hLoad : isLoading = false) :
    reviewsPageTable (some reviewsData) isLoading =
      TableView.noReviewsFound := by
  subst hLoad
  simp [reviewsPageTable, reviewsTableView, hLen]

/-- C7 witness: a delivered empty list with loading off renders the
placeholder. -/
theorem empty_fetch_renders_placeholder_witness :
    reviewsPageTable (some []) false = TableView.noReviewsFound :=
  empty_fetch_renders_placeholder [] false rfl rfl

/-- C8 counterexample: on the reviews page a failed list fetch emits no
toast, and on the dashboard and analytics pages a failure of the full
page data renders no blocking error view; hence it is false that every
page both toasts on a failed fetch and shows a blocking retry view on a
full-data failure. -/
theorem error_policy_counterexample :
    reviewsFetchErrorToasts true = [] ∧
    dashboardErrorView true true = PageErrorView.nonBlocking ∧
    analyticsErrorView true = PageErrorView.nonBlocking ∧
    ¬ (reviewsFetchErrorToasts true ≠ [] ∧
       dashboardErrorView true true = PageErrorView.blockingError true ∧
       analyticsErrorView true = PageErrorView.blockingError true) := by
  refine ⟨rfl, rfl, rfl, ?_⟩
  intro h
  exact h.1 rfl

/-- C8 amended: a failed query on the dashboard or analytics page surfaces
as one transient toast per failed query and never as a blocking view,
while a failed list fetch on the reviews page surfaces as a blocking error
view with a manual retry action and no toast. -/
theorem error_policy_amended (metricsError reviewsError hasError : Bool) :
    (metricsError = true →
      "Failed to load metrics" ∈ dashboardErrorToasts metricsError reviewsError) ∧
    (reviewsError = true →
      "Failed to load reviews" ∈ dashboardErrorToasts metricsError reviewsError) ∧
    dashboardErrorView metricsError reviewsError = PageErrorView.nonBlocking ∧
    (hasError = true →
      analyticsErrorToasts hasError = ["Failed to load analytics"]) ∧
    analyticsErrorView hasError = PageErrorView.nonBlocking ∧
    reviewsPageErrorView true = PageErrorView.blockingError true ∧
    reviewsFetchErrorToasts true = [] := by
  refine ⟨?_, ?_, rfl, ?_, rfl, rfl, rfl⟩ <;>
    (intro h; subst h; simp [dashboardErrorToasts, analyticsErrorToasts])

/-- C8 amended witness: with every error flag set, both dashboard toasts
fire, the analytics toast fires, the reviews page shows the blocking retry
view, and the reviews page emits no toast. -/
theorem error_policy_amended_witness :
    "Failed to load metrics" ∈ dashboardErrorToasts true true ∧
    "Failed to load reviews" ∈ dashboardErrorToasts true true ∧
    analyticsErrorToasts true = ["Failed to load analytics"] ∧
    reviewsPageErrorView true = PageErrorView.blockingError true ∧
    reviewsFetchErrorToasts true = [] :=
  ⟨(error_policy_amended true true true).1 rfl,
    (error_policy_amended true true true).2.1 rfl,
    (error_policy_amended true true true).2.2.2.1 rfl,
    (error_policy_amended true true true).2.2.2.2.2.1,
    (error_policy_amended true true true).2.2.2.2.2.2⟩

/-- Each single event of the reviews page keeps the page number at least
1. -/
theorem stepReviewsPage_page_ge_one (e : ReviewsPageEvent)
    (s : ReviewsPageState) (h : 1 ≤ s.page) :
    1 ≤ (stepReviewsPage e s).page := by
  cases e with
  | search v => simp [stepReviewsPage, handleSearch]
  | statusChange v => simp [stepReviewsPage, handleStatusChange]
  | sortChange v => simp [stepReviewsPage, handleSortChange]
  | prevClick => exact le_max_left 1 (s.page - 1)
  | nextClick =>
      simp only [stepReviewsPage, nextPageClick]
      omega

/-- Folding any event list over a state with page at least 1 keeps the
page at least 1. -/
theorem foldReviewsPage_page_ge_one (es : List ReviewsPageEvent) :
    ∀ s : ReviewsPageState, 1 ≤ s.page →
      1 ≤ (es.foldl (fun s e => stepReviewsPage e s) s).page := by
  induction es with
  | nil => intro s h; exact h
  | cons e es ih =>
      intro s h
      exact ih _ (stepReviewsPage_page_ge_one e s h)

/-- C9: the reviews page number is always at least 1: it starts at 1, any
event sequence keeps it at least 1, the Previous control computes
max 1 (page - 1) and is disabled exactly at page 1, and the Next control
adds 1. -/
theorem reviews_page_number_invariant (es : List ReviewsPageEvent)
    (s : ReviewsPageState) :
    1 ≤ (runReviewsPage es).page ∧
    initialReviewsPageState.page = 1 ∧
    (prevPageClick s).page = max 1 (s.page - 1) ∧
    (prevDisabled s = true ↔ s.page = 1) ∧
    (nextPageClick s).page = s.page + 1 := by
  refine ⟨foldReviewsPage_page_ge_one es initialReviewsPageState (by decide),
    rfl, rfl, ?_, rfl⟩
  simp [prevDisabled]

/-- C9 witness: a concrete event sequence of next, search and previous
clicks keeps the page at 1 or more, and the control facts hold at a
concrete state with page 2. -/
theorem reviews_page_number_invariant_witness :
    1 ≤ (runReviewsPage
        [ReviewsPageEvent.nextClick, ReviewsPageEvent.search "repo",
          ReviewsPageEvent.prevClick]).page ∧
    initialReviewsPageState.page = 1 ∧
    (prevPageClick (nextPageClick initialReviewsPageState)).page =
      max 1 ((nextPageClick initialReviewsPageState).page - 1) ∧
    (prevDisabled (nextPageClick initialReviewsPageState) = true ↔
      (nextPageClick initialReviewsPageState).page = 1) ∧
    (nextPageClick (nextPageClick initialReviewsPageState)).page =
      (nextPageClick initialReviewsPageState).page + 1 :=
  reviews_page_number_invariant
    [ReviewsPageEvent.nextClick, ReviewsPageEvent.search "repo",
      ReviewsPageEvent.prevClick]
    (nextPageClick initialReviewsPageState)

/-- C10: invoking save while the draft is still null issues no mutation
request and leaves the whole state, the saving flag included, unchanged. -/
theorem save_with_null_draft_is_noop (s : SettingsPageState)
    (h : s.settings = none) :
    handleSave s = (s, none) ∧ (handleSave s).1.saving = s.saving := by
  simp [handleSave, h]

/-- C10 witness: in the initial settings page state, whose draft is null
and whose saving flag is false, save issues no request and the saving flag
stays false. -/
theorem save_with_null_draft_is_noop_witness :
    handleSave settingsPageInit = (settingsPageInit, none) ∧
    (handleSave settingsPageInit).1.saving = settingsPageInit.saving :=
  save_with_null_draft_is_noop settingsPageInit rfl

end REV2
